import Mathlib

/-!
Verification development for the FinRobot demo server (`servercn.py`).

The file shallowly embeds the functions of the source that the tracked
properties concern: the JSON (de)serialization boundary used by
`filter_user_content` and `initiate_chat_and_save_response`, the per
(subject, date) markdown result cache manipulated by `save_to_md` /
`read_response_from_md`, the entry point `analyze_company`, and the
termination predicate `is_termination_msg` of the user proxy agent.
The autogen conversation loop itself is not part of the repository; where a
property concerns it, a definition modelled from the specification is used
and marked as such.

File contents are modelled as a map from filename to optional content;
Python strings are modelled as Lean `String` (operating on `String.data`
so that everything reduces in the kernel); fallible Python code (which
raises exceptions) is modelled with `Except`.
-/

namespace FinRobot

/-- Whitespace characters of the JSON grammar, as skipped by `json.loads`. -/
def jsonWs (c : Char) : Bool :=
  c = ' ' || c = '\t' || c = '\n' || c = '\r'

/-- Drop leading JSON whitespace. -/
def skipWs : List Char → List Char
  | [] => []
  | c :: cs => if jsonWs c then skipWs cs else c :: cs

/-- JSON values as produced by `json.loads`.  Numbers keep their source
lexeme: the program never inspects numeric values. -/
inductive JVal where
  | jnull
  | jbool (b : Bool)
  | jnum (lexeme : String)
  | jstr (s : String)
  | jarr (elems : List JVal)
  | jobj (members : List (String × JVal))

/-- Value of a hexadecimal digit character, if it is one. -/
def hexDigitVal (c : Char) : Option Nat :=
  if '0' ≤ c ∧ c ≤ '9' then some (c.toNat - 48)
  else if 'a' ≤ c ∧ c ≤ 'f' then some (c.toNat - 87)
  else if 'A' ≤ c ∧ c ≤ 'F' then some (c.toNat - 55)
  else none

/-- Body of a JSON string literal, after the opening quote.  Mirrors the
strict mode of `json.loads`: raw control characters are rejected, the
standard escapes and `\uXXXX` (with surrogate-pair combination) are
recognised.  The accumulator holds the decoded characters in reverse. -/
def parseStringBody : Nat → List Char → List Char → Option (String × List Char)
  | 0, _, _ => none
  | fuel + 1, acc, cs =>
    match cs with
    | [] => none
    | '"' :: rest => some (String.mk acc.reverse, rest)
    | '\\' :: esc =>
      (match esc with
       | '"' :: rest => parseStringBody fuel ('"' :: acc) rest
       | '\\' :: rest => parseStringBody fuel ('\\' :: acc) rest
       | '/' :: rest => parseStringBody fuel ('/' :: acc) rest
       | 'b' :: rest => parseStringBody fuel (Char.ofNat 8 :: acc) rest
       | 'f' :: rest => parseStringBody fuel (Char.ofNat 12 :: acc) rest
       | 'n' :: rest => parseStringBody fuel ('\n' :: acc) rest
       | 'r' :: rest => parseStringBody fuel ('\r' :: acc) rest
       | 't' :: rest => parseStringBody fuel ('\t' :: acc) rest
       | 'u' :: a :: b :: c :: d :: rest =>
         (match hexDigitVal a, hexDigitVal b, hexDigitVal c, hexDigitVal d with
          | some ha, some hb, some hc, some hd =>
            let n := ((ha * 16 + hb) * 16 + hc) * 16 + hd
            if 0xD800 ≤ n ∧ n ≤ 0xDBFF then
              match rest with
              | '\\' :: 'u' :: e :: f :: g :: h :: rest2 =>
                (match hexDigitVal e, hexDigitVal f, hexDigitVal g, hexDigitVal h with
                 | some he, some hf, some hg, some hh =>
                   let m := ((he * 16 + hf) * 16 + hg) * 16 + hh
                   if 0xDC00 ≤ m ∧ m ≤ 0xDFFF then
                     parseStringBody fuel
                       (Char.ofNat (0x10000 + (n - 0xD800) * 0x400 + (m - 0xDC00)) :: acc) rest2
                   else
                     parseStringBody fuel (Char.ofNat n :: acc)
                       ('\\' :: 'u' :: e :: f :: g :: h :: rest2)
                 | _, _, _, _ => none)
              | _ => parseStringBody fuel (Char.ofNat n :: acc) rest
            else parseStringBody fuel (Char.ofNat n :: acc) rest
          | _, _, _, _ => none)
       | _ => none)
    | c :: rest => if c.toNat < 0x20 then none else parseStringBody fuel (c :: acc) rest

/-- Longest run of decimal digits at the head of the input. -/
def digitSpan : List Char → List Char × List Char
  | [] => ([], [])
  | c :: cs =>
    if c.isDigit then
      let p := digitSpan cs
      (c :: p.1, p.2)
    else ([], c :: cs)

/-- Integer part of a JSON number: `0`, or a nonzero digit followed by
digits (leading zeros are not absorbed, as in the JSON grammar). -/
def parseIntPart : List Char → Option (List Char × List Char)
  | [] => none
  | '0' :: rest => some (['0'], rest)
  | c :: rest =>
    if c.isDigit then
      let p := digitSpan rest
      some (c :: p.1, p.2)
    else none

/-- Optional fractional part of a JSON number. -/
def parseFracPart : List Char → Option (List Char × List Char)
  | '.' :: rest =>
    (match digitSpan rest with
     | ([], _) => none
     | (ds, rest2) => some ('.' :: ds, rest2))
  | cs => some ([], cs)

/-- Optional exponent part of a JSON number. -/
def parseExpPart : List Char → Option (List Char × List Char)
  | [] => some ([], [])
  | c :: rest =>
    if c = 'e' ∨ c = 'E' then
      match rest with
      | [] => none
      | s :: rest2 =>
        if s = '+' ∨ s = '-' then
          match digitSpan rest2 with
          | ([], _) => none
          | (ds, rest3) => some (c :: s :: ds, rest3)
        else
          match digitSpan rest with
          | ([], _) => none
          | (ds, rest3) => some (c :: ds, rest3)
    else some ([], c :: rest)

/-- JSON number at the head of the input. -/
def parseNumber (cs : List Char) : Option (JVal × List Char) :=
  let sp : List Char × List Char :=
    match cs with
    | '-' :: rest => (['-'], rest)
    | _ => ([], cs)
  match parseIntPart sp.2 with
  | none => none
  | some (ip, cs2) =>
    match parseFracPart cs2 with
    | none => none
    | some (fp, cs3) =>
      match parseExpPart cs3 with
      | none => none
      | some (ep, cs4) => some (.jnum (String.mk (sp.1 ++ ip ++ fp ++ ep)), cs4)

/-- JSON value at the head of the input, with fuel bounding the recursion
depth.  The continuation of an array or object after a comma is parsed by
re-entering with a synthetic opening bracket, which keeps the recursion
structural in the fuel. -/
def parseVal : Nat → List Char → Option (JVal × List Char)
  | 0, _ => none
  | fuel + 1, cs0 =>
    match skipWs cs0 with
    | '"' :: rest =>
      (match parseStringBody (rest.length + 1) [] rest with
       | some (s, rest2) => some (.jstr s, rest2)
       | none => none)
    | '[' :: rest =>
      (match skipWs rest with
       | ']' :: rest2 => some (.jarr [], rest2)
       | cs1 =>
         match parseVal fuel cs1 with
         | none => none
         | some (v, rest1) =>
           match skipWs rest1 with
           | ',' :: rest2 =>
             (match skipWs rest2 with
              | ']' :: _ => none
              | _ =>
                match parseVal fuel ('[' :: rest2) with
                | some (.jarr vs, rest3) => some (.jarr (v :: vs), rest3)
                | _ => none)
           | ']' :: rest2 => some (.jarr [v], rest2)
           | _ => none)
    | '{' :: rest =>
      (match skipWs rest with
       | '}' :: rest2 => some (.jobj [], rest2)
       | '"' :: rest1 =>
         (match parseStringBody (rest1.length + 1) [] rest1 with
          | none => none
          | some (k, rest2) =>
            match skipWs rest2 with
            | ':' :: rest3 =>
              (match parseVal fuel rest3 with
               | none => none
               | some (v, rest4) =>
                 match skipWs rest4 with
                 | ',' :: rest5 =>
                   (match skipWs rest5 with
                    | '}' :: _ => none
                    | _ =>
                      match parseVal fuel ('{' :: rest5) with
                      | some (.jobj kvs, rest6) => some (.jobj ((k, v) :: kvs), rest6)
                      | _ => none)
                 | '}' :: rest5 => some (.jobj [(k, v)], rest5)
                 | _ => none)
            | _ => none)
       | _ => none)
    | 'n' :: 'u' :: 'l' :: 'l' :: rest => some (.jnull, rest)
    | 't' :: 'r' :: 'u' :: 'e' :: rest => some (.jbool true, rest)
    | 'f' :: 'a' :: 'l' :: 's' :: 'e' :: rest => some (.jbool false, rest)
    | cs1 => parseNumber cs1

/-- Model of `json.loads`: parse one JSON document and require only
whitespace after it.  `none` models a raised `json.JSONDecodeError`. -/
def jsonLoads (s : String) : Option JVal :=
  match parseVal (2 * s.data.length + 2) s.data with
  | some (v, rest) => if skipWs rest = [] then some v else none
  | none => none

/-- Lookup in a decoded JSON object.  `json.loads` builds a `dict`, where a
duplicated key keeps its last occurrence, hence the right-biased search. -/
def pyDictGet : List (String × JVal) → String → Option JVal
  | [], _ => none
  | (k, v) :: rest, key =>
    match pyDictGet rest key with
    | some w => some w
    | none => if k = key then some v else none

/-- Iteration of a Python `for` loop over a decoded JSON value: a list
yields its elements, a dict its keys, a string its characters; other
values are not iterable (`TypeError`). -/
def pyIter : JVal → Option (List JVal)
  | .jarr xs => some xs
  | .jobj kvs => some (kvs.map (fun kv => .jstr kv.1))
  | .jstr s => some (s.data.map (fun c => .jstr (String.singleton c)))
  | _ => none

/-- Whether `needle` occurs as a contiguous subsequence of `hay`; model of
the Python `in` operator on strings, via the character lists. -/
def containsSeq (needle : List Char) : List Char → Bool
  | [] => List.isPrefixOf needle []
  | c :: tl => List.isPrefixOf needle (c :: tl) || containsSeq needle tl

/-- Python `sub in s` for strings. -/
def strContainsSub (s sub : String) : Bool :=
  containsSeq sub.data s.data

/-- Loop of `filter_user_content` (servercn.py, lines 137-140): scan the
decoded entries, returning the content of the first entry whose `role` is
`user` and whose `content` contains `###`; otherwise a fixed fallback.
Subscripting a non-dict entry, a missing key, and a non-string content
raise in Python and are modelled as errors.  A non-string `role` value
simply compares unequal to `user`. -/
def find_user_content : List JVal → Except String String
  | [] => .ok "No relevant content found."
  | entry :: rest =>
    match entry with
    | .jobj kvs =>
      (match pyDictGet kvs "role" with
       | none => .error "KeyError: role"
       | some (.jstr r) =>
         if r = "user" then
           match pyDictGet kvs "content" with
           | none => .error "KeyError: content"
           | some (.jstr c) =>
             if strContainsSub c "###" then .ok c else find_user_content rest
           | some _ => .error "TypeError: content is not a string"
         else find_user_content rest
       | some _ => find_user_content rest)
    | _ => .error "TypeError: entry is not a dict"

/-- Translation of `filter_user_content` (servercn.py, lines 133-140):
`json.loads` the argument, iterate over the result, and scan for the first
user entry containing the marker.  A raised exception is `.error`. -/
def filter_user_content (chat_history : String) : Except String String :=
  match jsonLoads chat_history with
  | none => .error "json.JSONDecodeError"
  | some v =>
    match pyIter v with
    | none => .error "TypeError: object is not iterable"
    | some entries => find_user_content entries

/-- Chat message dictionary entry, the shape the program reads back out of
a serialized chat history: a `role` and a `content`, both strings. -/
structure Entry where
  role : String
  content : String
deriving DecidableEq

/-- Lowercase hexadecimal digit character, as emitted by `json.dumps`. -/
def hexDigitChar (n : Nat) : Char :=
  if n < 10 then Char.ofNat (48 + n) else Char.ofNat (87 + n)

/-- The escape `\uXXXX` for a code unit. -/
def uEscape (n : Nat) : String :=
  String.mk ['\\', 'u', hexDigitChar (n / 4096 % 16), hexDigitChar (n / 256 % 16),
             hexDigitChar (n / 16 % 16), hexDigitChar (n % 16)]

/-- Escaping of one character by `json.dumps` with its default
`ensure_ascii=True`: quote, backslash and control characters use the short
escapes, every non-ASCII character becomes `\uXXXX` (a surrogate pair
beyond the basic plane). -/
def pyJsonEscapeChar (c : Char) : String :=
  if c = '"' then "\\\""
  else if c = '\\' then "\\\\"
  else if c = '\n' then "\\n"
  else if c = '\r' then "\\r"
  else if c = '\t' then "\\t"
  else if c.toNat = 8 then "\\b"
  else if c.toNat = 12 then "\\f"
  else if c.toNat < 0x20 ∨ 0x7f ≤ c.toNat then
    if c.toNat < 0x10000 then uEscape c.toNat
    else uEscape (0xD800 + (c.toNat - 0x10000) / 0x400) ++
         uEscape (0xDC00 + (c.toNat - 0x10000) % 0x400)
  else String.singleton c

/-- A JSON string literal for `s`, in the style of `json.dumps`. -/
def pyJsonQuote (s : String) : String :=
  "\"" ++ String.join (s.data.map pyJsonEscapeChar) ++ "\""

/-- One chat-history entry rendered by `json.dumps(..., indent=4)`. -/
def dumpEntry (e : Entry) : String :=
  "    \x7b\n        \"role\": " ++ pyJsonQuote e.role ++ ",\n        \"content\": "
    ++ pyJsonQuote e.content ++ "\n    \x7d"

/-- Model of `json.dumps(chat_history, indent=4)` (servercn.py, line 131). -/
def dumpEntries (hist : List Entry) : String :=
  match hist with
  | [] => "[]"
  | _ => "[\n" ++ String.intercalate ",\n" (hist.map dumpEntry) ++ "\n]"

/-! ### File system and cache model -/

/-- The working directory, as a map from filename to file content. -/
def FS : Type := String → Option String

/-- A directory with no result files. -/
def emptyFS : FS := fun _ => none

/-- Writing (or overwriting) one file. -/
def fsWrite (fs : FS) (name content : String) : FS :=
  fun f => if f = name then some content else fs f

/-- Translation of `save_to_md` (servercn.py, lines 39-42): open the file
in write mode — overwriting it if present — and write the content followed
by a newline. -/
def save_to_md (content filename : String) (fs : FS) : FS :=
  fsWrite fs filename (content ++ "\n")

/-- Translation of `read_response_from_md` (servercn.py, lines 34-37):
read the whole file.  `none` models the `FileNotFoundError` raised when
the file does not exist. -/
def read_response_from_md (filename : String) (fs : FS) : Option String :=
  fs filename

/-- Markdown result filename for a company and date (cache key). -/
def mdFilename (company today_date : String) : String :=
  "result_" ++ company ++ "_" ++ today_date ++ ".md"

/-- JSON transcript filename for a company and date. -/
def jsonFilename (company today_date : String) : String :=
  "result_" ++ company ++ "_" ++ today_date ++ ".json"

/-! ### Orchestration model -/

/-- Response object returned by `user_proxy.initiate_chat`, with the five
fields `save_response_to_json` reads.  The object is produced by the
external autogen library; `cost` and `human_input` are opaque here. -/
structure ChatResult where
  chat_id : Nat
  chat_history : List Entry
  summary : String
  cost : String
  human_input : List String

/-- Translation of `save_response_to_json` (servercn.py, lines 101-111):
serialize the response dictionary to the given filename.  The program
never reads this file back; only the write to the key is observable. -/
def dumpResponseJson (resp : ChatResult) : String :=
  "\x7b\n    \"chat_id\": " ++ toString resp.chat_id
    ++ ",\n    \"chat_history\": " ++ dumpEntries resp.chat_history
    ++ ",\n    \"summary\": " ++ pyJsonQuote resp.summary
    ++ ",\n    \"cost\": " ++ resp.cost
    ++ ",\n    \"human_input\": ["
    ++ String.intercalate ", " (resp.human_input.map pyJsonQuote) ++ "]\n\x7d"

def save_response_to_json (resp : ChatResult) (filename : String) (fs : FS) : FS :=
  fsWrite fs filename (dumpResponseJson resp)

/-- The dialogue orchestrator (`user_proxy.initiate_chat` together with
the two configured agents and the autogen machinery behind them), as an
oracle from the initial task message to either a completed response or a
raised exception. -/
def Orch : Type := String → Except String ChatResult

/-- Task message built by `initiate_chat_and_save_response`
(servercn.py, line 126). -/
def chatMessage (company today_date : String) : String :=
  "Report in Chinese. Use all the tools provided to retrieve information available for "
    ++ company ++ " upon " ++ today_date
    ++ ". Analyze the positive developments and potential concerns of " ++ company
    ++ " with 2-4 most important factors respectively and keep them concise. "
    ++ "Most factors should be inferred from company related news. "
    ++ "Then make a rough prediction (e.g. up/down by %) of the " ++ company
    ++ " stock price movement for next week. Provide a summary analysis to support your prediction."

/-- Errors a request can surface to the caller. -/
inductive PyError where
  | orchError (msg : String)
  | jsonError (msg : String)
deriving DecidableEq

/-- Translation of `initiate_chat_and_save_response` (servercn.py,
lines 114-131): if the markdown file already exists return its content;
otherwise run the chat, save the response transcript to the JSON file, and
return the chat history serialized by `json.dumps(..., indent=4)`.  The
result carries the content (or raised error), the directory after the
call, and how many times the orchestrator was invoked. -/
def initiate_chat_and_save_response (orch : Orch) (company today_date : String)
    (fs : FS) : Except PyError String × FS × Nat :=
  match fs (mdFilename company today_date) with
  | some cached => (.ok cached, fs, 0)
  | none =>
    match orch (chatMessage company today_date) with
    | .error e => (.error (.orchError e), fs, 1)
    | .ok resp =>
      (.ok (dumpEntries resp.chat_history),
       save_response_to_json resp (jsonFilename company today_date) fs, 1)

/-- Python `str.upper()` (exact for the ASCII subjects the form accepts). -/
def pyUpper (s : String) : String :=
  String.mk (s.data.map Char.toUpper)

/-- Outcome of one request to the entry point: the value returned to the
caller (`.ok none` models Python returning `None`, `.error` a raised
exception), the directory afterwards, and the orchestrator call count. -/
structure RunOut where
  ret : Except PyError (Option String)
  fs : FS
  orchCalls : Nat

/-- Translation of `analyze_company` (servercn.py, lines 143-157): a falsy
subject short-circuits to `None`; otherwise the subject is upper-cased,
the markdown cache file is checked, and on a miss the orchestration runs,
the result is filtered and saved, and the filtered content is returned.
`env` is the interference of the rest of the system on the directory
between the entry point's own existence check and the one inside
`initiate_chat_and_save_response` (`id` when the request runs alone). -/
def analyze_company (orch : Orch) (today_date : String) (env : FS → FS)
    (fs : FS) (company0 : String) : RunOut :=
  if company0 = "" then ⟨.ok none, fs, 0⟩
  else
    let company := pyUpper company0
    let md := mdFilename company today_date
    match fs md with
    | some cached => ⟨.ok (some cached), fs, 0⟩
    | none =>
      match initiate_chat_and_save_response orch company today_date (env fs) with
      | (.error e, fs2, n) => ⟨.error e, fs2, n⟩
      | (.ok content, fs2, n) =>
        match filter_user_content content with
        | .error e => ⟨.error (.jsonError e), fs2, n⟩
        | .ok filtered => ⟨.ok (some filtered), save_to_md filtered md fs2, n⟩

/-! ### Termination predicate and dialogue state -/

/-- ASCII whitespace stripped by Python `str.strip()`. -/
def pyIsSpace (c : Char) : Bool :=
  c = ' ' || c = '\t' || c = '\n' || c = '\r' || c.toNat = 11 || c.toNat = 12

/-- Python `str.strip()` on ASCII whitespace. -/
def pyStrip (s : String) : String :=
  String.mk (((s.data.dropWhile pyIsSpace).reverse.dropWhile pyIsSpace).reverse)

/-- Python `str.endswith(suffix)`. -/
def strEndsWith (s suffixStr : String) : Bool :=
  List.isPrefixOf suffixStr.data.reverse s.data.reverse

/-- Translation of the `is_termination_msg` lambda of the user proxy
(servercn.py, line 65): the message content is truthy and, once stripped,
ends with `TERMINATE`.  `none` models a missing or `None` content, on
which the `and` short-circuits to a falsy value. -/
def is_termination_msg (content : Option String) : Bool :=
  match content with
  | none => false
  | some c => (c != "") && strEndsWith (pyStrip c) "TERMINATE"

/-- The `max_consecutive_auto_reply` bound configured on the user proxy
(servercn.py, line 67). -/
def max_consecutive_auto_reply : Nat := 10

/-- Terminal states of the dialogue, per the specification. -/
inductive TermState where
  | Running
  | TerminatedNormally
  | TerminatedByLimit
  | Failed
deriving DecidableEq

/-- Conversation state owned by the dialogue loop. -/
structure Conversation where
  messages : List (Option String)
  terminated : Bool

/-- The conversation before any message. -/
def initialConversation : Conversation := ⟨[], false⟩

/-- Modelled from the spec: one orchestrator step appends a message and
evaluates the termination check on it (the conversation loop lives in the
external autogen library, not in this repository); once terminated, no
further message is appended. -/
def stepAppend (conv : Conversation) (m : Option String) : Conversation :=
  if conv.terminated then conv
  else ⟨conv.messages ++ [m], is_termination_msg m⟩

/-- Modelled from the spec: run the dialogue loop over a sequence of
appended message contents. -/
def runSteps (ms : List (Option String)) : Conversation :=
  ms.foldl stepAppend initialConversation

/-- Modelled from the spec: the turn loop with an explicit turn budget.
While the budget is not exhausted, the next message is produced and the
termination check evaluated; exhausting the budget yields
`TerminatedByLimit` with the turn count reached.  `gen` gives the content
of the message produced at each turn. -/
def runLoop (gen : Nat → Option String) : Nat → Nat → Nat × TermState
  | turnCount, 0 => (turnCount, .TerminatedByLimit)
  | turnCount, fuel + 1 =>
    if is_termination_msg (gen turnCount) then (turnCount + 1, .TerminatedNormally)
    else runLoop gen (turnCount + 1) fuel

/-- Modelled from the spec: a dialogue run with turn budget `maxTurns`. -/
def runDialogue (maxTurns : Nat) (gen : Nat → Option String) : Nat × TermState :=
  runLoop gen 0 maxTurns

/-! ### Helper lemmas -/

/-- Embedding of a role/content entry as the decoded JSON object
`json.loads` produces for it. -/
def entryToJVal (e : Entry) : JVal :=
  .jobj [("role", .jstr e.role), ("content", .jstr e.content)]

/-- Selection rule of the specification: a user-role entry whose content
contains the `###` marker. -/
def isUserMarkerEntry (e : Entry) : Bool :=
  (e.role == "user") && strContainsSub e.content "###"

theorem find_user_content_map (hist : List Entry) :
    find_user_content (hist.map entryToJVal) =
      .ok (match hist.find? isUserMarkerEntry with
           | some e => e.content
           | none => "No relevant content found.") := by
  induction hist with
  | nil => rfl
  | cons e t ih =>
    by_cases hr : e.role = "user"
    · by_cases hc : strContainsSub e.content "###" = true
      · have hp : isUserMarkerEntry e = true := by
          simp [isUserMarkerEntry, hr, hc]
        rw [List.map_cons, List.find?_cons_of_pos _ hp]
        show find_user_content (entryToJVal e :: t.map entryToJVal) = .ok e.content
        simp [find_user_content, entryToJVal, pyDictGet, hr, hc]
      · have hp : isUserMarkerEntry e = false := by
          simp [isUserMarkerEntry, hc]
        rw [List.map_cons, List.find?_cons_of_neg _ (by simp [hp])]
        show find_user_content (entryToJVal e :: t.map entryToJVal) = _
        simp only [find_user_content, entryToJVal, pyDictGet]
        simp [hr, hc, ih]
    · have hp : isUserMarkerEntry e = false := by
        simp [isUserMarkerEntry, hr]
      rw [List.map_cons, List.find?_cons_of_neg _ (by simp [hp])]
      show find_user_content (entryToJVal e :: t.map entryToJVal) = _
      simp only [find_user_content, entryToJVal, pyDictGet]
      simp [hr, ih]

theorem foldl_stepAppend_terminated (ms : List (Option String)) (conv : Conversation) :
    (ms.foldl stepAppend conv).terminated =
      (conv.terminated || ms.any is_termination_msg) := by
  induction ms generalizing conv with
  | nil => simp
  | cons m t ih =>
    rw [List.foldl_cons, ih, List.any_cons]
    cases hconv : conv.terminated with
    | true => simp [stepAppend, hconv]
    | false => simp [stepAppend, hconv]

theorem runLoop_limit (gen : Nat → Option String) :
    ∀ (fuel turnCount tc : Nat),
      runLoop gen turnCount fuel = (tc, .TerminatedByLimit) → tc = turnCount + fuel := by
  intro fuel
  induction fuel with
  | zero =>
    intro t tc h
    simp only [runLoop, Prod.mk.injEq] at h
    omega
  | succ f ih =>
    intro t tc h
    simp only [runLoop] at h
    by_cases hterm : is_termination_msg (gen t) = true
    · rw [if_pos hterm] at h
      exact absurd (congrArg Prod.snd h) (by simp)
    · rw [if_neg hterm] at h
      have := ih (t + 1) tc h
      omega

theorem runLoop_exhausts (gen : Nat → Option String)
    (hgen : ∀ i, is_termination_msg (gen i) = false) :
    ∀ (fuel turnCount : Nat),
      runLoop gen turnCount fuel = (turnCount + fuel, .TerminatedByLimit) := by
  intro fuel
  induction fuel with
  | zero => intro t; simp [runLoop]
  | succ f ih =>
    intro t
    have hx : is_termination_msg (gen t) = false := hgen t
    rw [show t + (f + 1) = (t + 1) + f by omega, ← ih (t + 1)]
    simp [runLoop, hx]

theorem pyUpper_empty_iff (s : String) : pyUpper s = "" ↔ s = "" := by
  cases s with
  | mk l =>
    cases l with
    | nil => simp [pyUpper]
    | cons c t =>
      constructor
      · intro h
        exact absurd (congrArg String.data h) (by simp [pyUpper])
      · intro h
        exact absurd (congrArg String.data h) (by simp)

/-! ### Claim theorems -/

/-- Concrete chat history used by the concrete runs below. -/
def histDemo : List Entry := [⟨"user", "### demo"⟩]

/-- Orchestrator oracle that completes with `histDemo`. -/
def orchDemo : Orch := fun _ => .ok ⟨0, histDemo, "", "0", []⟩

/-- First request for (ACME, 2026-10-12) on an empty directory. -/
def firstRun : RunOut := analyze_company orchDemo "2026-10-12" id emptyFS "ACME"

/-- Second, identical request, on the directory the first one left. -/
def secondRun : RunOut := analyze_company orchDemo "2026-10-12" id firstRun.fs "ACME"

/-- C1 counterexample: on the second identical call the orchestrator is
not invoked again, but the returned report is the first call's report with
a trailing newline appended (`save_to_md` writes `content + "\n"`), so it
is not byte-for-byte identical to the first call's return value. -/
theorem second_call_not_byte_identical :
    firstRun.ret = .ok (some "### demo") ∧
    secondRun.ret = .ok (some "### demo\n") ∧
    ("### demo" : String) ≠ "### demo\n" ∧
    firstRun.orchCalls = 1 ∧ secondRun.orchCalls = 0 :=
  ⟨rfl, rfl, by decide, rfl, rfl⟩

/-- C1 (amended): for every subject and date, calling the entry point
twice invokes the orchestrator exactly once in total, and the second call
returns the cached report, which is the first call's return value with one
trailing newline appended. -/
theorem second_call_cached_with_newline (orch : Orch) (today_date : String) (fs : FS)
    (company : String) (resp : ChatResult) (r : String)
    (hne : company ≠ "")
    (hmiss : fs (mdFilename (pyUpper company) today_date) = none)
    (horch : orch (chatMessage (pyUpper company) today_date) = .ok resp)
    (hfilter : filter_user_content (dumpEntries resp.chat_history) = .ok r) :
    (analyze_company orch today_date id fs company).ret = .ok (some r) ∧
    (analyze_company orch today_date id fs company).orchCalls = 1 ∧
    (analyze_company orch today_date id
       (analyze_company orch today_date id fs company).fs company).ret =
      .ok (some (r ++ "\n")) ∧
    (analyze_company orch today_date id
       (analyze_company orch today_date id fs company).fs company).orchCalls = 0 := by
  have h1 : analyze_company orch today_date id fs company =
      ⟨.ok (some r),
       save_to_md r (mdFilename (pyUpper company) today_date)
         (save_response_to_json resp (jsonFilename (pyUpper company) today_date) fs), 1⟩ := by
    simp only [analyze_company, if_neg hne, hmiss, initiate_chat_and_save_response,
               horch, hfilter, id_eq]
  have hfs : (analyze_company orch today_date id fs company).fs
      (mdFilename (pyUpper company) today_date) = some (r ++ "\n") := by
    rw [h1]
    simp [save_to_md, fsWrite]
  have h2 : ∀ fsx : FS, fsx (mdFilename (pyUpper company) today_date) = some (r ++ "\n") →
      analyze_company orch today_date id fsx company = ⟨.ok (some (r ++ "\n")), fsx, 0⟩ := by
    intro fsx hx
    simp only [analyze_company, if_neg hne, hx]
  exact ⟨by rw [h1], by rw [h1],
         by rw [h2 _ hfs], by rw [h2 _ hfs]⟩

/-- Witness applying the amended C1 theorem to a concrete run. -/
theorem second_call_cached_with_newline_witness :
    (analyze_company orchDemo "2026-10-12" id emptyFS "ACME").ret = .ok (some "### demo") ∧
    (analyze_company orchDemo "2026-10-12" id emptyFS "ACME").orchCalls = 1 ∧
    (analyze_company orchDemo "2026-10-12" id
       (analyze_company orchDemo "2026-10-12" id emptyFS "ACME").fs "ACME").ret =
      .ok (some ("### demo" ++ "\n")) ∧
    (analyze_company orchDemo "2026-10-12" id
       (analyze_company orchDemo "2026-10-12" id emptyFS "ACME").fs "ACME").orchCalls = 0 :=
  second_call_cached_with_newline orchDemo "2026-10-12" emptyFS "ACME"
    ⟨0, histDemo, "", "0", []⟩ "### demo" (by decide) rfl rfl rfl

/-- C2 counterexample: writing to a key that already holds an entry does
not fail — `save_to_md` opens the file in write mode and replaces the
existing content. -/
theorem cache_write_overwrites_counterexample :
    (save_to_md "old" "result_ACME_2026-10-12.md" emptyFS) "result_ACME_2026-10-12.md" =
      some "old\n" ∧
    (save_to_md "new" "result_ACME_2026-10-12.md"
       (save_to_md "old" "result_ACME_2026-10-12.md" emptyFS)) "result_ACME_2026-10-12.md" =
      some "new\n" ∧
    ("new\n" : String) ≠ "old\n" :=
  ⟨rfl, rfl, by decide⟩

/-- C2 (amended): the cache write always succeeds and unconditionally
overwrites any existing entry for its key; there is no
`AlreadyExistsError`. -/
theorem cache_write_always_overwrites (fs : FS) (k old new : String)
    (_hexists : fs k = some old) :
    (save_to_md new k fs) k = some (new ++ "\n") := by
  simp [save_to_md, fsWrite]

/-- Witness applying the amended C2 theorem at a concrete key. -/
theorem cache_write_always_overwrites_witness :
    (save_to_md "B" "result_X_2026-10-12.md"
       (save_to_md "A" "result_X_2026-10-12.md" emptyFS)) "result_X_2026-10-12.md" =
      some ("B" ++ "\n") :=
  cache_write_always_overwrites _ "result_X_2026-10-12.md" "A\n" "B" rfl

/-- C3: when a cache entry exists for the (upper-cased subject, date) key
at request time, the entry point returns the cached report unchanged and
the orchestrator is never invoked, regardless of the orchestrator oracle
and of any concurrent interference after the check. -/
theorem cache_hit_no_orchestration (orch : Orch) (today_date : String) (env : FS → FS)
    (fs : FS) (company cached : String)
    (hne : company ≠ "")
    (hhit : fs (mdFilename (pyUpper company) today_date) = some cached) :
    analyze_company orch today_date env fs company = ⟨.ok (some cached), fs, 0⟩ := by
  simp only [analyze_company, if_neg hne, hhit]

/-- Directory already holding a report for (ACME, 2026-10-12). -/
def fsHit : FS := fsWrite emptyFS (mdFilename "ACME" "2026-10-12") "cached report\n"

/-- Witness applying the C3 theorem at a concrete hit. -/
theorem cache_hit_no_orchestration_witness :
    analyze_company (fun _ => .error "unused") "2026-10-12" id fsHit "acme" =
      ⟨.ok (some "cached report\n"), fsHit, 0⟩ :=
  cache_hit_no_orchestration _ _ _ _ _ _ (by decide) rfl

/-- C4: on a serialized transcript that decodes to a list of role/content
messages, report extraction returns the content of the first user-role
message whose content contains the `###` marker, and the fixed fallback
text — not an error — when no message matches. -/
theorem report_extraction_first_match (s : String) (hist : List Entry)
    (hparse : jsonLoads s = some (.jarr (hist.map entryToJVal))) :
    filter_user_content s =
      .ok (match hist.find? isUserMarkerEntry with
           | some e => e.content
           | none => "No relevant content found.") := by
  simp only [filter_user_content, hparse, pyIter]
  exact find_user_content_map hist

set_option maxRecDepth 8192 in
/-- Witness applying the C4 theorem on a concrete matching transcript and
a concrete transcript with no match. -/
theorem report_extraction_first_match_witness :
    filter_user_content
        "[\x7b\"role\": \"user\", \"content\": \"intro\"\x7d, \x7b\"role\": \"user\", \"content\": \"### first\"\x7d, \x7b\"role\": \"user\", \"content\": \"### second\"\x7d]" =
      .ok "### first" ∧
    filter_user_content "[\x7b\"role\": \"assistant\", \"content\": \"### x\"\x7d]" =
      .ok "No relevant content found." :=
  ⟨report_extraction_first_match _
     [⟨"user", "intro"⟩, ⟨"user", "### first"⟩, ⟨"user", "### second"⟩] rfl,
   report_extraction_first_match _ [⟨"assistant", "### x"⟩] rfl⟩

/-- C5 counterexample: a message whose content is `TERMINATE` followed by
a newline does not end with the sentinel token, yet the step appending it
terminates the conversation, because the predicate strips whitespace
before checking the suffix. -/
theorem sentinel_not_suffix_still_terminates :
    (stepAppend initialConversation (some "TERMINATE\n")).terminated = true ∧
    strEndsWith "TERMINATE\n" "TERMINATE" = false :=
  ⟨rfl, rfl⟩

/-- C5 (amended): the conversation is terminated after a prefix of steps
exactly when some appended message in that prefix satisfies the predicate,
which holds iff the content is truthy and its whitespace-stripped form
ends with the sentinel `TERMINATE`; so the transition happens on the step
appending the first such message and not before. -/
theorem termination_on_sentinel_step :
    (∀ (ms : List (Option String)) (k : Nat),
       (runSteps (ms.take k)).terminated = (ms.take k).any is_termination_msg) ∧
    (∀ c : String,
       is_termination_msg (some c) = ((c != "") && strEndsWith (pyStrip c) "TERMINATE")) ∧
    is_termination_msg none = false :=
  ⟨fun ms k => by
     simp [runSteps, foldl_stepAppend_terminated, initialConversation],
   fun _ => rfl, rfl⟩

/-- C6: the turn budget is an explicit parameter of the dialogue loop, the
source configures it to 10, and a run that exhausts the budget ends in
`TerminatedByLimit` — a valid outcome, not an error — with the turn count
equal to the configured maximum. -/
theorem turn_budget_exact :
    max_consecutive_auto_reply = 10 ∧
    (∀ (maxTurns : Nat) (gen : Nat → Option String) (tc : Nat),
       runDialogue maxTurns gen = (tc, .TerminatedByLimit) → tc = maxTurns) ∧
    (∀ (maxTurns : Nat) (gen : Nat → Option String),
       (∀ i, is_termination_msg (gen i) = false) →
       runDialogue maxTurns gen = (maxTurns, .TerminatedByLimit)) :=
  ⟨rfl,
   fun maxTurns gen tc h => by
     have := runLoop_limit gen maxTurns 0 tc h
     omega,
   fun maxTurns gen hgen => by
     have := runLoop_exhausts gen hgen maxTurns 0
     simpa [runDialogue] using this⟩

/-- Witness applying the C6 theorem to a generator that never emits the
sentinel, with budget 2. -/
theorem turn_budget_exact_witness :
    (2 : Nat) = 2 ∧ runDialogue 2 (fun _ => none) = (2, .TerminatedByLimit) :=
  ⟨turn_budget_exact.2.1 2 (fun _ => none) 2 rfl,
   turn_budget_exact.2.2 2 (fun _ => none) (fun _ => rfl)⟩

/-- C7: when the orchestration fails, the entry point surfaces the failure
with the directory unchanged — no cache entry is written — and a
re-submitted identical request invokes the orchestrator again from
scratch. -/
theorem orch_failure_no_cache_write (orch : Orch) (today_date : String) (fs : FS)
    (company e : String)
    (hne : company ≠ "")
    (hmiss : fs (mdFilename (pyUpper company) today_date) = none)
    (horch : orch (chatMessage (pyUpper company) today_date) = .error e) :
    analyze_company orch today_date id fs company = ⟨.error (.orchError e), fs, 1⟩ ∧
    (analyze_company orch today_date id
       (analyze_company orch today_date id fs company).fs company).orchCalls = 1 := by
  have h1 : analyze_company orch today_date id fs company =
      ⟨.error (.orchError e), fs, 1⟩ := by
    simp only [analyze_company, if_neg hne, hmiss, initiate_chat_and_save_response,
               horch, id_eq]
  exact ⟨h1, by rw [h1, show (⟨.error (.orchError e), fs, 1⟩ : RunOut).fs = fs from rfl, h1]⟩

/-- Witness applying the C7 theorem to a failing oracle. -/
theorem orch_failure_no_cache_write_witness :
    analyze_company (fun _ => .error "timeout") "2026-10-12" id emptyFS "ACME" =
      ⟨.error (.orchError "timeout"), emptyFS, 1⟩ ∧
    (analyze_company (fun _ => .error "timeout") "2026-10-12" id
       (analyze_company (fun _ => .error "timeout") "2026-10-12" id emptyFS "ACME").fs
       "ACME").orchCalls = 1 :=
  orch_failure_no_cache_write _ _ _ _ _ (by decide) rfl rfl

/-- C8: the entry point upper-cases the subject before building the cache
key or doing any other work, so two subjects that upper-case to the same
canonical form share the cache key and the whole request behaves
identically for them. -/
theorem case_normalization (orch : Orch) (today_date : String) (env : FS → FS) (fs : FS)
    (s1 s2 : String) (h : pyUpper s1 = pyUpper s2) :
    mdFilename (pyUpper s1) today_date = mdFilename (pyUpper s2) today_date ∧
    analyze_company orch today_date env fs s1 = analyze_company orch today_date env fs s2 := by
  refine ⟨by rw [h], ?_⟩
  by_cases h1 : s1 = ""
  · have h2 : s2 = "" := by
      refine (pyUpper_empty_iff s2).1 ?_
      rw [← h, h1]
      rfl
    rw [h1, h2]
  · have h2 : s2 ≠ "" := fun hh =>
      h1 ((pyUpper_empty_iff s1).1 (by rw [h, hh]; rfl))
    simp only [analyze_company, if_neg h1, if_neg h2, h]

/-- Witness applying the C8 theorem to two case-variants of one ticker. -/
theorem case_normalization_witness :
    mdFilename (pyUpper "aapl") "2026-10-12" = mdFilename (pyUpper "AaPl") "2026-10-12" ∧
    analyze_company (fun _ => .error "x") "2026-10-12" id emptyFS "aapl" =
      analyze_company (fun _ => .error "x") "2026-10-12" id emptyFS "AaPl" :=
  case_normalization _ _ _ _ _ _ rfl

/-- C9: if the cache file comes into existence between the entry point's
existence check and the inner check of `initiate_chat_and_save_response`,
the inner branch returns the raw markdown text, `filter_user_content`
fails to decode it as JSON, and the entry point raises instead of
returning the cached report; extraction is only total on inputs that parse
as JSON. -/
theorem race_raw_cache_raises (orch : Orch) (today_date : String) (env : FS → FS)
    (fs : FS) (company raw : String)
    (hne : company ≠ "")
    (hmiss : fs (mdFilename (pyUpper company) today_date) = none)
    (hrace : (env fs) (mdFilename (pyUpper company) today_date) = some raw)
    (hbad : jsonLoads raw = none) :
    analyze_company orch today_date env fs company =
      ⟨.error (.jsonError "json.JSONDecodeError"), env fs, 0⟩ ∧
    filter_user_content raw = .error "json.JSONDecodeError" := by
  have hf : filter_user_content raw = .error "json.JSONDecodeError" := by
    simp [filter_user_content, hbad]
  refine ⟨?_, hf⟩
  simp only [analyze_company, if_neg hne, hmiss, initiate_chat_and_save_response,
             hrace, hf]

/-- Interference creating the cache file with plain markdown between the
two existence checks. -/
def raceEnv : FS → FS := fun fs =>
  fsWrite fs (mdFilename "ACME" "2026-10-12") "No relevant content found.\n"

/-- Witness applying the C9 theorem to a concrete race. -/
theorem race_raw_cache_raises_witness :
    analyze_company (fun _ => .error "unused") "2026-10-12" raceEnv emptyFS "ACME" =
      ⟨.error (.jsonError "json.JSONDecodeError"), raceEnv emptyFS, 0⟩ ∧
    filter_user_content "No relevant content found.\n" = .error "json.JSONDecodeError" :=
  race_raw_cache_raises _ _ _ _ _ _ (by decide) rfl rfl rfl

/-- C10: for the empty (falsy) subject the entry point returns `None`,
leaves the directory untouched, and never invokes the orchestrator. -/
theorem empty_subject_noop (orch : Orch) (today_date : String) (env : FS → FS) (fs : FS) :
    analyze_company orch today_date env fs "" = ⟨.ok none, fs, 0⟩ := by
  simp [analyze_company]

end FinRobot
